import Mathlib

/-!
Verification of the m9dicts merge-engine API (`m9dicts/api.py`):
path-expression parsing (`_split_path`, `_jsnp_unescape`), the JSON-Pointer
style accessor `get`, the tree builder `make` / `_make_from_namedtuple`, and
the lowering function `convert_to`.

Python values are embedded as the inductive type `Val`; Python exceptions as
`PyExc`, distinguishing the exception classes that `get`'s handler catches
(`TypeError`, `KeyError`, `IndexError`) from those it does not (`ValueError`).
Fallible operations return `Except PyExc _`, where `.error` means a raised
exception.

Helpers of the library that live outside `api.py` (`m9dicts.utils` type
predicates, `m9dicts.globals.MERGE_STRATEGIES`, the classes produced by
`m9dicts.dicts.get_mdict_class`) are modelled from the spec, as marked in
their doc comments.  CPython built-in behaviour (`dict`/`list` subscription,
`int()` parsing, `collections.namedtuple` validation) is modelled after
CPython 3, restricted to ASCII text.
-/

/-- Embedded Python value.  `dict` is a plain `dict` (association list of
string keys, in insertion order; keys are unique by the `dict` invariant);
`ntpl` is a namedtuple (class name and fields in declared order); `mdict` is
an instance of the class `m9dicts.dicts.get_mdict_class(merge=m, ordered=o)`,
carrying its merge-policy identifier and ordered flag.  Scalars are restricted
to int / str / bool. -/
inductive Val : Type where
  | null : Val
  | int : Int → Val
  | str : String → Val
  | bool : Bool → Val
  | list : List Val → Val
  | dict : List (String × Val) → Val
  | ntpl : String → List (String × Val) → Val
  | mdict : String → Bool → List (String × Val) → Val
deriving Repr

/-- Embedded Python exception.  `get`'s handler is
`except (TypeError, KeyError, IndexError)`, so those three are "caught" and
`ValueError` is not.  For `KeyError` we store the key; `str(exc)` is the
`repr` of the key, i.e. the key in single quotes. -/
inductive PyExc : Type where
  | typeError : String → PyExc
  | keyError : String → PyExc
  | indexError : String → PyExc
  | valueError : String → PyExc
deriving Repr, DecidableEq

/-- Whether the exception class is in `(TypeError, KeyError, IndexError)`,
the tuple caught by `get` (api.py line 131). -/
def PyExc.isCaught : PyExc → Bool
  | .valueError _ => false
  | _ => true

/-- `str(exc)` as produced by CPython 3 for the exceptions we model. -/
def PyExc.toMsg : PyExc → String
  | .typeError m => m
  | .keyError k => "\x27" ++ k ++ "\x27"
  | .indexError m => m
  | .valueError m => m

/-! ## Path splitting and unescaping (api.py lines 28-75) -/

/-- `PATH_SEPS = ('/', '.')` (api.py line 28). -/
def PATH_SEPS : List Char := ['/', '.']

/-- Python `str.replace` specialised to a two-character pattern replaced by a
single character: scan left to right, replacing non-overlapping occurrences. -/
def replacePair : List Char → Char → Char → Char → List Char
  | [], _, _, _ => []
  | [c], _, _, _ => [c]
  | c1 :: c2 :: rest, p1, p2, r =>
      if c1 = p1 ∧ c2 = p2 then r :: replacePair rest p1 p2 r
      else c1 :: replacePair (c2 :: rest) p1 p2 r

/-- `_jsnp_unescape` (api.py lines 36-48):
`jsn_s.replace('~1', '/').replace('~0', '~')`. -/
def jsnp_unescape (s : String) : String :=
  ⟨replacePair (replacePair s.data '~' '1' '/') '~' '0' '~'⟩

/-- Python `str.split(sep)` for a single-character separator: split at every
occurrence, keeping empty fragments. -/
def splitOnChar : List Char → Char → List (List Char)
  | [], _ => [[]]
  | c :: rest, sep =>
      if c = sep then [] :: splitOnChar rest sep
      else
        match splitOnChar rest sep with
        | [] => [[c]]
        | g :: gs => (c :: g) :: gs

/-- `_split_path` (api.py lines 51-75) on character lists: empty path gives
`[]`; otherwise the first separator of `PATH_SEPS` occurring in the path
splits the whole path, with empty segments dropped, except that a path equal
to that single separator gives `[[]]`; with no separator present the whole
path is one item. -/
def splitPathChars (cs : List Char) : List (List Char) :=
  if cs = [] then []
  else
    match PATH_SEPS.find? (fun sep => cs.contains sep) with
    | some sep =>
        if cs = [sep] then [[]]
        else (splitOnChar cs sep).filter (· ≠ [])
    | none => [cs]

/-- `_split_path` (api.py lines 51-75). -/
def split_path (path : String) : List String :=
  (splitPathChars path.data).map (fun cs => ⟨cs⟩)

/-- The token list used by `get` (api.py line 120):
`[_jsnp_unescape(p) for p in _split_path(path, seps)]`. -/
def pathTokens (path : String) : List String :=
  (split_path path).map jsnp_unescape

/-! ## Type predicates of `m9dicts.utils` (not under src/) -/

/-- Modelled from the spec: `m9dicts.utils.is_list_like`, true exactly for
Sequence values (the spec's Value model keeps Sequences, Mappings and Records
disjoint). -/
def is_list_like : Val → Bool
  | .list _ => true
  | _ => false

/-- Modelled from the spec: `m9dicts.utils.is_dict_like`, true for Mapping
values, which includes every Mergeable Mapping. -/
def is_dict_like : Val → Bool
  | .dict _ => true
  | .mdict _ _ _ => true
  | _ => false

/-- Modelled from the spec: `m9dicts.utils.is_namedtuple`, true for Record
(namedtuple) values. -/
def is_namedtuple : Val → Bool
  | .ntpl _ _ => true
  | _ => false

/-! ## CPython subscription and `int()` (built-ins used by `get`) -/

/-- First-occurrence lookup in an association list, i.e. `dict` access for a
`dict` whose keys are unique. -/
def alistLookup : List (String × Val) → String → Option Val
  | [], _ => none
  | (k, v) :: rest, key => if k = key then some v else alistLookup rest key

/-- CPython `obj[key]` for a string key: mapping lookup (`KeyError` when the
key is missing), `TypeError` for sequences, strings, and non-subscriptable
objects.  Messages follow CPython 3.5, the era of the source. -/
def getitemStr (v : Val) (key : String) : Except PyExc Val :=
  match v with
  | .dict es =>
      match alistLookup es key with
      | some x => .ok x
      | none => .error (.keyError key)
  | .mdict _ _ es =>
      match alistLookup es key with
      | some x => .ok x
      | none => .error (.keyError key)
  | .list _ => .error (.typeError "list indices must be integers or slices, not str")
  | .ntpl _ _ => .error (.typeError "tuple indices must be integers or slices, not str")
  | .str _ => .error (.typeError "string indices must be integers")
  | .null => .error (.typeError "\x27NoneType\x27 object is not subscriptable")
  | .int _ => .error (.typeError "\x27int\x27 object is not subscriptable")
  | .bool _ => .error (.typeError "\x27bool\x27 object is not subscriptable")

/-- CPython `obj[i]` for an integer index.  Negative indices count from the
end; out-of-range raises `IndexError`.  In `get` this is only reached when
`is_list_like` already held, so the non-list fallback is unreachable there. -/
def getitemIdx (v : Val) (i : Int) : Except PyExc Val :=
  match v with
  | .list xs =>
      let j := if i < 0 then i + xs.length else i
      if j < 0 then .error (.indexError "list index out of range")
      else
        match xs.get? j.toNat with
        | some x => .ok x
        | none => .error (.indexError "list index out of range")
  | _ => .error (.typeError "object is not subscriptable")

/-- Tail of a CPython integer literal body: decimal digits with single
underscores strictly between digits. -/
def pyIntTail : List Char → Bool
  | [] => true
  | '_' :: [] => false
  | '_' :: c :: rest => c.isDigit && pyIntTail (c :: rest)
  | c :: rest => c.isDigit && pyIntTail rest

/-- Numeric value of a digits-and-underscores literal. -/
def pyIntVal (cs : List Char) : Nat :=
  cs.foldl (fun a c => if c = '_' then a else a * 10 + (c.toNat - 48)) 0

/-- CPython `int(s)` for the strings `get` can feed it: every such string
already begins with an ASCII digit (it prefix-matched
`_JSNP_GET_ARRAY_IDX_REG`), so the sign/whitespace forms of `int()` are
unreachable and only `digit (underscore? digit)*` bodies convert; anything
else raises `ValueError` — which `get`'s handler does NOT catch. -/
def pyInt (s : String) : Except PyExc Int :=
  match s.data with
  | c :: rest =>
      if c.isDigit && pyIntTail rest then .ok (pyIntVal s.data)
      else .error (.valueError ("invalid literal for int() with base 10: \x27" ++ s ++ "\x27"))
  | [] => .error (.valueError ("invalid literal for int() with base 10: \x27" ++ s ++ "\x27"))

/-- Truthiness of `_JSNP_GET_ARRAY_IDX_REG.match(s)` (api.py line 30):
`re.match` with pattern `(?:0|[1-9][0-9]*)` succeeds iff some PREFIX of `s`
matches, which holds exactly when the first character is an ASCII digit.
(The pattern is unanchored: `re.match` does not require the whole string to
match.) -/
def jsnpGetArrayIdxMatch (s : String) : Bool :=
  match s.data with
  | [] => false
  | c :: _ => c.isDigit

/-! ## `get` (api.py lines 98-132) -/

/-- `functools.reduce(operator.getitem, keys, v)`: successive keyed lookups;
a raised exception aborts the reduction. -/
def reduceGetitem (v : Val) : List String → Except PyExc Val
  | [] => .ok v
  | k :: rest =>
      match getitemStr v k with
      | .ok w => reduceGetitem w rest
      | .error e => .error e

/-- The body of `get`'s `try:` block (api.py lines 123-129), for a non-empty
token list: one token is a direct keyed lookup; otherwise
`functools.reduce(operator.getitem, items[:-1], dic)` descends by keyed
lookups and the final token is an integer index exactly when the parent is
list-like and the token prefix-matches the array-index pattern
(`arr = m9dicts.utils.is_list_like(prnt) and idx_reg.match(items[-1])`). -/
def getTry (dic : Val) (items : List String) : Except PyExc (Val × String) :=
  match items with
  | [] => .ok (dic, "")
  | [k] =>
      match getitemStr dic k with
      | .ok v => .ok (v, "")
      | .error e => .error e
  | _ =>
      match reduceGetitem dic items.dropLast with
      | .error e => .error e
      | .ok prnt =>
          let lastTok := items.getLastD ""
          if is_list_like prnt && jsnpGetArrayIdxMatch lastTok then
            match pyInt lastTok with
            | .error e => .error e
            | .ok i =>
                match getitemIdx prnt i with
                | .ok v => .ok (v, "")
                | .error e => .error e
          else
            match getitemStr prnt lastTok with
            | .ok v => .ok (v, "")
            | .error e => .error e

/-- `get` (api.py lines 98-132).  `.ok (v, e)` is the returned pair
`(result_object, error_message)`; `.error exc` is an exception that escaped
the `except (TypeError, KeyError, IndexError)` handler. -/
def get (dic : Val) (path : String) : Except PyExc (Val × String) :=
  let items := pathTokens path
  if items = [] then .ok (dic, "")
  else
    match getTry dic items with
    | .ok r => .ok r
    | .error e => if e.isCaught then .ok (.null, e.toMsg) else .error e

/-! ## Sanity checks against the doctest of `get` -/

/-- The doctest tree `{'a': {'b': {'c': 0, 'd': [1, 2]}}, '': 3}`. -/
def exTree : Val :=
  .dict [("a", .dict [("b", .dict [("c", .int 0), ("d", .list [.int 1, .int 2])])]),
         ("", .int 3)]

example : get exTree "/" = .ok (.int 3, "") := rfl
example : get exTree "/a/b/c" = .ok (.int 0, "") := rfl
example : get exTree "/a/b/d/1" = .ok (.int 2, "") := rfl
example : get exTree "/a/b/d/2" = .ok (.null, "list index out of range") := rfl
example : get exTree "a.b.key_not_exist" = .ok (.null, "\x27key_not_exist\x27") := rfl
example : get exTree "/a/b/d/-" =
    .ok (.null, "list indices must be integers or slices, not str") := rfl

/-! ## `make` (api.py lines 150-202) -/

/-- Modelled from the spec: `m9dicts.globals.MERGE_STRATEGIES`, the closed
set of the four named merge-policy identifiers of spec 4.3 (REPLACE,
NO_REPLACE, DICTS, DICTS_AND_LISTS); `m9dicts.globals` is not under src/. -/
def MERGE_STRATEGIES : List String :=
  ["replace", "no_replace", "dicts", "dicts_and_lists"]

/-- `NAMEDTUPLE_CLS_KEY` (api.py line 33), the reserved marker key. -/
def NAMEDTUPLE_CLS_KEY : String := "namedtuple_cls__"

/-- `d[k] = v` on an (ordered) mapping: overwrite in place when the key is
present, append otherwise. -/
def alistSet : List (String × Val) → String → Val → List (String × Val)
  | [], k, v => [(k, v)]
  | (k0, v0) :: rest, k, v =>
      if k0 = k then (k0, v) :: rest
      else (k0, v0) :: alistSet rest k v

mutual

/-- The recursion of `make` (api.py lines 186-202) after the merge-strategy
check has passed; since every recursive call of the source passes the same
validated `merge`, the per-call re-check never fires and the recursion is
total.  `None` becomes an empty mdict (`cls()`); dict-like input becomes an
mdict of the requested class with `None` values kept as-is and all other
values lifted recursively; namedtuples go through `_make_from_namedtuple`;
lists keep their type with lifted elements; anything else is returned
unchanged. -/
def makeRec : Val → Bool → String → Val
  | .null, o, m => .mdict m o []
  | .dict es, o, m => .mdict m o (makeDictEntries es o m)
  | .mdict _ _ es, o, m => .mdict m o (makeDictEntries es o m)
  | .ntpl name fields, o, m =>
      .mdict m true (alistSet (makeNtplEntries fields o m) NAMEDTUPLE_CLS_KEY (.str name))
  | .list xs, o, m => .list (makeListElems xs o m)
  | .int n, _, _ => .int n
  | .str s, _, _ => .str s
  | .bool b, _, _ => .bool b

/-- `(k, None if v is None else make(v, **opts))` over a dict's items
(api.py lines 195-196). -/
def makeDictEntries : List (String × Val) → Bool → String → List (String × Val)
  | [], _, _ => []
  | (k, .null) :: rest, o, m => (k, .null) :: makeDictEntries rest o m
  | (k, v) :: rest, o, m => (k, makeRec v o m) :: makeDictEntries rest o m

/-- `(k, make(getattr(obj, k), **opts)) for k in obj._fields`
(api.py line 164): namedtuple field values always go through `make`,
with the caller's `ordered`/`merge` options. -/
def makeNtplEntries : List (String × Val) → Bool → String → List (String × Val)
  | [], _, _ => []
  | (k, v) :: rest, o, m => (k, makeRec v o m) :: makeNtplEntries rest o m

/-- `type(obj)(make(v, **opts) for v in obj)` (api.py line 200). -/
def makeListElems : List Val → Bool → String → List Val
  | [], _, _ => []
  | v :: rest, o, m => makeRec v o m :: makeListElems rest o m

end

/-- `make` (api.py lines 170-202): `ValueError` when `merge` is not a known
strategy (checked first, before `obj` is inspected at all); otherwise the
total recursion `makeRec`. -/
def make (obj : Val) (ordered : Bool) (merge : String) : Except PyExc Val :=
  if MERGE_STRATEGIES.contains merge then .ok (makeRec obj ordered merge)
  else .error (.valueError ("Wrong merge strategy: \x27" ++ merge ++ "\x27"))

/-- Scalar values of the spec's Value model (bool / number / text),
excluding Null. -/
def Val.isScalar : Val → Bool
  | .int _ => true
  | .str _ => true
  | .bool _ => true
  | _ => false

example : make (.int 5) false "dicts" = .ok (.int 5) := rfl
example : make .null false "dicts" = .ok (.mdict "dicts" false []) := rfl
example : make (.ntpl "X" [("a", .int 1), ("b", .int 2)]) false "dicts" =
    .ok (.mdict "dicts" true
      [("a", .int 1), ("b", .int 2), (NAMEDTUPLE_CLS_KEY, .str "X")]) := rfl
example : make (.int 5) false "bogus" =
    .error (.valueError "Wrong merge strategy: \x27bogus\x27") := rfl

/-! ## `collections.namedtuple` name validation (CPython stdlib) -/

/-- The CPython 3 keyword list used by `keyword.iskeyword`. -/
def PY_KEYWORDS : List String :=
  ["False", "None", "True", "and", "as", "assert", "async", "await",
   "break", "class", "continue", "def", "del", "elif", "else", "except",
   "finally", "for", "from", "global", "if", "import", "in", "is",
   "lambda", "nonlocal", "not", "or", "pass", "raise", "return", "try",
   "while", "with", "yield"]

/-- `str.isidentifier`, restricted to ASCII: a letter or underscore followed
by letters, digits or underscores. -/
def isPyIdentifier (s : String) : Bool :=
  match s.data with
  | [] => false
  | c :: rest => (c.isAlpha || c = '_') && rest.all (fun d => d.isAlphanum || d = '_')

/-- The per-name check of `collections.namedtuple`: a valid identifier that
is not a keyword, else `ValueError`. -/
def ntCheckIdent (s : String) : Except PyExc Unit :=
  if !isPyIdentifier s then
    .error (.valueError ("Type names and field names must be valid identifiers: \x27" ++ s ++ "\x27"))
  else if PY_KEYWORDS.contains s then
    .error (.valueError ("Type names and field names cannot be a keyword: \x27" ++ s ++ "\x27"))
  else .ok ()

/-- `ntCheckIdent` over a list of names. -/
def ntCheckIdents : List String → Except PyExc Unit
  | [] => .ok ()
  | f :: rest => do
      ntCheckIdent f
      ntCheckIdents rest

/-- The field-specific loop of `collections.namedtuple` (no `rename`): fields
may not start with an underscore and may not repeat. -/
def ntCheckFieldsAux : List String → List String → Except PyExc Unit
  | [], _ => .ok ()
  | f :: rest, seen =>
      if (match f.data with | c :: _ => c == '_' | [] => false) then
        .error (.valueError ("Field names cannot start with an underscore: \x27" ++ f ++ "\x27"))
      else if seen.contains f then
        .error (.valueError ("Encountered duplicate field name: \x27" ++ f ++ "\x27"))
      else ntCheckFieldsAux rest (f :: seen)

/-- `collections.namedtuple(typename, field_names)` validation, CPython 3
with `rename=False`: typename and every field must be a non-keyword
identifier; fields must not start with an underscore nor repeat. -/
def namedtupleValidate (typename : String) (fields : List String) : Except PyExc Unit := do
  ntCheckIdent typename
  ntCheckIdents fields
  ntCheckFieldsAux fields []

/-! ## `convert_to` (api.py lines 205-242) -/

mutual

/-- `convert_to` (api.py lines 205-242).  `ordered` picks `OrderedDict` over
`dict` in the source; the model represents both as `.dict` with the entry
order kept, so the flag is carried but does not change the modelled result.
Records (`.ntpl`) are neither dict-like nor list-like and fall through to the
identity branch.  The dict-like branch (api.py lines 231-238, identical for
`.dict` and `.mdict` since both are `is_dict_like`): with `to_namedtuple`
unset, rebuild a plain mapping with recursively converted values; otherwise
convert the values of all non-marker keys, take the type name from the marker
key (`"NamedTuple"` when absent; it must be text), and build the namedtuple —
`collections.namedtuple` validates the names after the values have been
converted. -/
def convert_to : Val → Bool → Bool → Except PyExc Val
  | .dict es, o, t =>
      if t then do
        let fs ← convertNtFields es o
        match (alistLookup es NAMEDTUPLE_CLS_KEY).getD (.str "NamedTuple") with
        | .str n => do
            namedtupleValidate n (fs.map Prod.fst)
            pure (.ntpl n fs)
        | _ => .error (.typeError "namedtuple() argument must be str")
      else do
        let es2 ← convertEntries es o
        pure (.dict es2)
  | .mdict _ _ es, o, t =>
      if t then do
        let fs ← convertNtFields es o
        match (alistLookup es NAMEDTUPLE_CLS_KEY).getD (.str "NamedTuple") with
        | .str n => do
            namedtupleValidate n (fs.map Prod.fst)
            pure (.ntpl n fs)
        | _ => .error (.typeError "namedtuple() argument must be str")
      else do
        let es2 ← convertEntries es o
        pure (.dict es2)
  | .list xs, o, t => do
      let ys ← convertListElems xs o t
      pure (.list ys)
  | v, _, _ => .ok v

/-- `(k, convert_to(v, **opts)) for k, v in obj.items()` (api.py line 233). -/
def convertEntries : List (String × Val) → Bool → Except PyExc (List (String × Val))
  | [], _ => .ok []
  | (k, v) :: rest, o => do
      let w ← convert_to v o false
      let ws ← convertEntries rest o
      pure ((k, w) :: ws)

/-- `_keys`/`_vals` of api.py lines 236-237 fused over the entry list: skip
the marker key, convert every other value in order (keys are unique by the
`dict` invariant, so `obj[k]` is the entry's own value). -/
def convertNtFields : List (String × Val) → Bool → Except PyExc (List (String × Val))
  | [], _ => .ok []
  | (k, v) :: rest, o =>
      if k = NAMEDTUPLE_CLS_KEY then convertNtFields rest o
      else do
        let w ← convert_to v o true
        let ws ← convertNtFields rest o
        pure ((k, w) :: ws)

/-- `type(obj)(convert_to(v, **opts) for v in obj)` (api.py line 240). -/
def convertListElems : List Val → Bool → Bool → Except PyExc (List Val)
  | [], _, _ => .ok []
  | v :: rest, o, t => do
      let w ← convert_to v o t
      let ws ← convertListElems rest o t
      pure (w :: ws)

end

example : convert_to (.mdict "dicts" true
    [("a", .int 1), ("b", .int 2), (NAMEDTUPLE_CLS_KEY, .str "X")]) false true =
    .ok (.ntpl "X" [("a", .int 1), ("b", .int 2)]) := rfl
example : convert_to (.dict [("a", .int 1)]) false true =
    .ok (.ntpl "NamedTuple" [("a", .int 1)]) := rfl
example : convert_to (.dict [("a b", .int 1)]) false true =
    .error (.valueError "Type names and field names must be valid identifiers: \x27a b\x27") := rfl

/-! ## Claim C7: path splitting -/

/-- C7: `_split_path` maps `""` to the empty token list and a lone separator
to `[""]`; otherwise the separators are scanned in the order `/` then `.`,
the first one present anywhere splits the whole string with empty segments
dropped, and a string with no separator is a one-element path.  (For
`"/a/b/"` the empty trailing segment is dropped, giving `["a", "b"]`.) -/
theorem split_path_spec :
    split_path "" = [] ∧
    split_path "/" = [""] ∧
    split_path "." = [""] ∧
    split_path "a.b.c" = ["a", "b", "c"] ∧
    split_path "/a/b/c" = ["a", "b", "c"] ∧
    split_path "/a/b/" = ["a", "b"] ∧
    split_path "a.b." = ["a", "b"] ∧
    split_path "a/b" = ["a", "b"] ∧
    split_path "a.b/c" = ["a.b", "c"] ∧
    split_path "abc" = ["abc"] ∧
    (∀ p : String, p.data.contains '/' = true → p ≠ "/" →
      split_path p = ((splitOnChar p.data '/').filter (· ≠ [])).map (fun cs => ⟨cs⟩)) ∧
    (∀ p : String, p.data.contains '/' = false → p.data.contains '.' = true → p ≠ "." →
      split_path p = ((splitOnChar p.data '.').filter (· ≠ [])).map (fun cs => ⟨cs⟩)) ∧
    (∀ p : String, p.data.contains '/' = false → p.data.contains '.' = false → p ≠ "" →
      split_path p = [p]) := by
  refine ⟨by decide, by decide, by decide, by decide, by decide, by decide, by decide,
    by decide, by decide, by decide, ?_, ?_, ?_⟩
  · intro p h1 h2
    have hne : p.data ≠ [] := by
      intro h0
      rw [h0] at h1
      simp [List.contains] at h1
    have hne2 : p.data ≠ ['/'] := by
      intro h0
      exact h2 (String.ext (h0.trans rfl))
    have h1m : '/' ∈ p.data := by simpa using h1
    unfold split_path splitPathChars
    simp [hne, PATH_SEPS, List.find?, h1m, hne2]
  · intro p h1 h2 h3
    have hne : p.data ≠ [] := by
      intro h0
      rw [h0] at h2
      simp [List.contains] at h2
    have hne2 : p.data ≠ ['.'] := by
      intro h0
      exact h3 (String.ext (h0.trans rfl))
    have h1m : '/' ∉ p.data := by simpa using h1
    have h2m : '.' ∈ p.data := by simpa using h2
    unfold split_path splitPathChars
    simp [hne, PATH_SEPS, List.find?, h1m, h2m, hne2]
  · intro p h1 h2 h3
    have hne : p.data ≠ [] := by
      intro h0
      exact h3 (String.ext (h0.trans rfl))
    have h1m : '/' ∉ p.data := by simpa using h1
    have h2m : '.' ∉ p.data := by simpa using h2
    unfold split_path splitPathChars
    simp [hne, PATH_SEPS, List.find?, h1m, h2m]

/-- Witness for `split_path_spec`: the separator-free universal part at
`"ab"`, the dot case at `"x.y"`, and the slash case at `"x/y"`. -/
theorem split_path_spec_witness :
    split_path "ab" = ["ab"] ∧ split_path "x.y" = ["x", "y"] ∧
    split_path "x/y" = ["x", "y"] := by
  refine ⟨?_, ?_, ?_⟩
  · exact (split_path_spec.2.2.2.2.2.2.2.2.2.2.2.2) "ab" (by decide) (by decide) (by decide)
  · have h := (split_path_spec.2.2.2.2.2.2.2.2.2.2.2.1) "x.y" (by decide) (by decide)
      (by decide)
    rw [h]
    decide
  · have h := (split_path_spec.2.2.2.2.2.2.2.2.2.2.1) "x/y" (by decide) (by decide)
    rw [h]
    decide

/-! ## Claim C8: JSON-Pointer unescaping -/

/-- C8: after splitting, every segment is unescaped with `~1` becoming `/`
and then `~0` becoming `~` (the `~0` pass runs on the output of the `~1`
pass, matching the required order); `get`'s token list is exactly the split
segments unescaped. -/
theorem jsnp_unescape_spec :
    jsnp_unescape "a~1b" = "a/b" ∧
    jsnp_unescape "~1aaa~1~0bbb" = "/aaa/~bbb" ∧
    jsnp_unescape "/a~1b" = "/a/b" ∧
    jsnp_unescape "a~0b" = "a~b" ∧
    (∀ path : String, pathTokens path = (split_path path).map jsnp_unescape) :=
  ⟨by decide, by decide, by decide, by decide, fun _ => rfl⟩

/-! ## Claim C1: `get` is claimed never to raise -/

/-- C1 (code bug): `get` DOES propagate an exception for a final token that
merely begins with a digit.  `_JSNP_GET_ARRAY_IDX_REG.match("1x")` is truthy
(`re.match` is a prefix match and the pattern is unanchored), so the code
runs `int("1x")`, which raises `ValueError` — a class absent from the
`except (TypeError, KeyError, IndexError)` handler — instead of returning a
`(None, message)` pair. -/
theorem get_raises_uncaught_valueerror :
    get (.dict [("a", .list [.int 1, .int 2])]) "/a/1x" =
      .error (.valueError "invalid literal for int() with base 10: \x271x\x27") := rfl

/-! ## Claim C2: final-token integer conversion -/

/-- C2 (code bug): the documented examples hold — on the doctest tree,
`"/"` gives `(3, "")`, `"a.b.d"` the list, `"/a/b/d/1"` gives `(2, "")` and
`"/a/b/d/2"` the out-of-range pair — but the claimed iff-characterisation of
index conversion fails: the unanchored prefix regex also accepts the
leading-zero token `"01"` (`int("01") = 1`), so `get({"a": [1, 2]}, "/a/01")`
performs index access and returns `(2, "")` where the claim requires keyed
access. -/
theorem get_array_index_token_behaviour :
    get exTree "/" = .ok (.int 3, "") ∧
    get exTree "a.b.d" = .ok (.list [.int 1, .int 2], "") ∧
    get exTree "/a/b/d/1" = .ok (.int 2, "") ∧
    get exTree "/a/b/d/2" = .ok (.null, "list index out of range") ∧
    get (.dict [("a", .list [.int 1, .int 2])]) "/a/01" = .ok (.int 2, "") :=
  ⟨rfl, rfl, rfl, rfl, rfl⟩

/-! ## Claim C3: `make` on Null and scalars -/

/-- C3 counterexample: `make` is NOT the identity on Null input.
`make(None)` executes `return cls()` (api.py lines 188-189) and hands back a
fresh empty Mergeable Mapping, not `None`. -/
theorem make_null_not_identity :
    make .null false "dicts" = .ok (.mdict "dicts" false []) ∧
    make .null false "dicts" ≠ .ok .null := by
  refine ⟨rfl, ?_⟩
  intro h
  rw [(rfl : make .null false "dicts" = .ok (.mdict "dicts" false []))] at h
  injection h with h1
  exact Val.noConfusion h1

/-- C3 amended: for every valid policy and every ordered flag, `make` returns
scalar input (bool/number/text) unchanged, while Null input yields a fresh
empty Mergeable Mapping of the requested policy and ordering. -/
theorem make_scalar_identity (v : Val) (o : Bool) (m : String)
    (hm : m ∈ MERGE_STRATEGIES) :
    (v.isScalar = true → make v o m = .ok v) ∧
    make .null o m = .ok (.mdict m o []) := by
  constructor
  · intro hs
    cases v <;> simp [Val.isScalar] at hs <;> simp [make, hm, makeRec]
  · simp [make, hm, makeRec]

/-- Witness for `make_scalar_identity` at the int scalar `7`, policy
`"dicts"`. -/
theorem make_scalar_identity_witness :
    make (.int 7) true "dicts" = .ok (.int 7) ∧
    make .null true "dicts" = .ok (.mdict "dicts" true []) :=
  ⟨(make_scalar_identity (.int 7) true "dicts" (by decide)).1 rfl,
   (make_scalar_identity (.int 7) true "dicts" (by decide)).2⟩

/-! ## Claim C4: merge-policy validation at construction time -/

/-- C4: `make` raises `ValueError` for a policy outside the four named merge
strategies — before the input object is inspected at all (the error is the
same for every `obj`) — and with a valid policy it never raises, returning
the lifted tree. -/
theorem make_policy_validation (obj : Val) (o : Bool) (m : String) :
    (m ∉ MERGE_STRATEGIES →
      make obj o m = .error (.valueError ("Wrong merge strategy: \x27" ++ m ++ "\x27"))) ∧
    (m ∈ MERGE_STRATEGIES → make obj o m = .ok (makeRec obj o m)) := by
  constructor
  · intro hm
    simp [make, hm]
  · intro hm
    simp [make, hm]

/-- Witness for `make_policy_validation`: the unknown policy `"bogus"` fails
at construction on a dict input, and all four named policies construct. -/
theorem make_policy_validation_witness :
    make (.dict [("a", .int 1)]) false "bogus" =
      .error (.valueError "Wrong merge strategy: \x27bogus\x27") ∧
    make (.dict [("a", .int 1)]) false "dicts" =
      .ok (makeRec (.dict [("a", .int 1)]) false "dicts") ∧
    make (.dict [("a", .int 1)]) false "replace" =
      .ok (makeRec (.dict [("a", .int 1)]) false "replace") ∧
    make (.dict [("a", .int 1)]) false "no_replace" =
      .ok (makeRec (.dict [("a", .int 1)]) false "no_replace") ∧
    make (.dict [("a", .int 1)]) false "dicts_and_lists" =
      .ok (makeRec (.dict [("a", .int 1)]) false "dicts_and_lists") :=
  ⟨(make_policy_validation (.dict [("a", .int 1)]) false "bogus").1 (by decide),
   (make_policy_validation (.dict [("a", .int 1)]) false "dicts").2 (by decide),
   (make_policy_validation (.dict [("a", .int 1)]) false "replace").2 (by decide),
   (make_policy_validation (.dict [("a", .int 1)]) false "no_replace").2 (by decide),
   (make_policy_validation (.dict [("a", .int 1)]) false "dicts_and_lists").2 (by decide)⟩

/-! ## Helper lemmas for the `make` / `convert_to` claims -/

/-- `Except`'s `>>=` on a success. -/
@[simp] theorem except_bind_ok {ε α β : Type} (a : α) (f : α → Except ε β) :
    (Except.ok a : Except ε α) >>= f = f a := rfl

/-- `Except.bind` on a success. -/
@[simp] theorem except_bind_ok' {ε α β : Type} (a : α) (f : α → Except ε β) :
    (Except.ok a : Except ε α).bind f = f a := rfl

/-- `Except.bind` on a raised exception. -/
@[simp] theorem except_bind_error' {ε α β : Type} (e : ε) (f : α → Except ε β) :
    (Except.error e : Except ε α).bind f = .error e := rfl

/-- `Except`'s `>>=` on a raised exception. -/
@[simp] theorem except_bind_error {ε α β : Type} (e : ε) (f : α → Except ε β) :
    (Except.error e : Except ε α) >>= f = .error e := rfl

/-- `pure` on `Except` is `.ok`. -/
@[simp] theorem except_pure_eq {ε α : Type} (a : α) :
    (pure a : Except ε α) = .ok a := rfl

/-- `makeNtplEntries` is the entry-wise lift of the field values. -/
theorem makeNtplEntries_eq_map (fields : List (String × Val)) (o : Bool) (m : String) :
    makeNtplEntries fields o m = fields.map (fun kv => (kv.1, makeRec kv.2 o m)) := by
  induction fields with
  | nil => rfl
  | cons kv rest ih =>
      cases kv
      simp [makeNtplEntries, ih]

/-- Setting a key absent from an ordered mapping appends the pair. -/
theorem alistSet_not_mem_append (es : List (String × Val)) (k : String) (v : Val)
    (h : k ∉ es.map Prod.fst) : alistSet es k v = es ++ [(k, v)] := by
  induction es with
  | nil => rfl
  | cons e rest ih =>
      cases e with
      | mk k0 v0 =>
          simp only [List.map_cons, List.mem_cons, not_or] at h
          obtain ⟨h1, h2⟩ := h
          simp [alistSet, Ne.symm h1, ih h2]

/-- `makeRec` is the identity on scalars. -/
theorem makeRec_scalar (v : Val) (o : Bool) (m : String) (h : v.isScalar = true) :
    makeRec v o m = v := by
  cases v <;> simp [Val.isScalar] at h <;> rfl

/-- `convert_to` is the identity on scalars. -/
theorem convert_to_scalar (v : Val) (o t : Bool) (h : v.isScalar = true) :
    convert_to v o t = .ok v := by
  cases v <;> simp [Val.isScalar] at h <;> rfl

/-- Lifting all-scalar namedtuple fields changes nothing. -/
theorem makeNtplEntries_scalar (fields : List (String × Val)) (o : Bool) (m : String)
    (h : fields.all (fun kv => kv.2.isScalar) = true) :
    makeNtplEntries fields o m = fields := by
  induction fields with
  | nil => rfl
  | cons kv rest ih =>
      cases kv with
      | mk k v =>
          simp only [List.all_cons, Bool.and_eq_true] at h
          obtain ⟨h1, h2⟩ := h
          simp [makeNtplEntries, makeRec_scalar v o m h1, ih h2]

/-- Converting all-scalar fields followed by the marker entry yields the
fields unchanged, the marker being skipped. -/
theorem convertNtFields_scalar (fields : List (String × Val)) (o : Bool) (w : Val)
    (hall : fields.all (fun kv => kv.2.isScalar) = true)
    (hk : NAMEDTUPLE_CLS_KEY ∉ fields.map Prod.fst) :
    convertNtFields (fields ++ [(NAMEDTUPLE_CLS_KEY, w)]) o = .ok fields := by
  induction fields with
  | nil => rfl
  | cons kv rest ih =>
      cases kv with
      | mk k v =>
          simp only [List.all_cons, Bool.and_eq_true] at hall
          simp only [List.map_cons, List.mem_cons, not_or] at hk
          obtain ⟨h1, h2⟩ := hall
          obtain ⟨hk1, hk2⟩ := hk
          simp [convertNtFields, Ne.symm hk1, convert_to_scalar v o true h1, ih h2 hk2]

/-- Looking up a key that occurs only as the appended final entry. -/
theorem alistLookup_append_self (es : List (String × Val)) (k : String) (w : Val)
    (h : k ∉ es.map Prod.fst) : alistLookup (es ++ [(k, w)]) k = some w := by
  induction es with
  | nil => simp [alistLookup]
  | cons e rest ih =>
      cases e with
      | mk k0 v0 =>
          simp only [List.map_cons, List.mem_cons, not_or] at h
          obtain ⟨h1, h2⟩ := h
          simp [alistLookup, Ne.symm h1, ih h2]

/-! ## Claim C5: `make` on namedtuples -/

/-- C5 counterexample: for a record with a field literally named
`namedtuple_cls__`, the marker assignment `mdict[_ntpl_cls_key] = ...`
(api.py line 165) overwrites the lifted field value in place, so the result
neither keeps the lifted field value nor holds the marker as an additional
key, contradicting the claim's "field values lifted plus exactly one marker
key" shape. -/
theorem make_namedtuple_marker_collision :
    make (.ntpl "X" [(NAMEDTUPLE_CLS_KEY, .int 1)]) false "dicts" =
      .ok (.mdict "dicts" true [(NAMEDTUPLE_CLS_KEY, .str "X")]) ∧
    make (.ntpl "X" [(NAMEDTUPLE_CLS_KEY, .int 1)]) false "dicts" ≠
      .ok (.mdict "dicts" true
        [(NAMEDTUPLE_CLS_KEY, .int 1), (NAMEDTUPLE_CLS_KEY, .str "X")]) := by
  refine ⟨rfl, ?_⟩
  intro h
  rw [(rfl : make (.ntpl "X" [(NAMEDTUPLE_CLS_KEY, .int 1)]) false "dicts" =
      .ok (.mdict "dicts" true [(NAMEDTUPLE_CLS_KEY, .str "X")]))] at h
  injection h with h1
  injection h1 with h2 h3 h4
  injection h4 with h5 h6
  injection h5 with h7 h8
  exact Val.noConfusion h8

/-- C5 amended: for every record whose fields do not include the reserved
marker name, under a valid policy, `make` yields an ORDERED Mergeable
Mapping (ordered even when the caller passed `ordered = false`) whose entries
are the fields in declared order with each value recursively lifted,
followed by exactly one marker entry holding the record's type name. -/
theorem make_namedtuple_ordered_marker (name : String) (fields : List (String × Val))
    (o : Bool) (m : String)
    (hm : m ∈ MERGE_STRATEGIES)
    (hk : NAMEDTUPLE_CLS_KEY ∉ fields.map Prod.fst) :
    make (.ntpl name fields) o m =
      .ok (.mdict m true
        (fields.map (fun kv => (kv.1, makeRec kv.2 o m)) ++
          [(NAMEDTUPLE_CLS_KEY, .str name)])) := by
  have hkeys : NAMEDTUPLE_CLS_KEY ∉
      (fields.map (fun kv => (kv.1, makeRec kv.2 o m))).map Prod.fst := by
    simpa [List.map_map, Function.comp] using hk
  simp [make, hm, makeRec, makeNtplEntries_eq_map,
    alistSet_not_mem_append _ _ _ hkeys]

/-- Witness for `make_namedtuple_ordered_marker`: a two-field record with a
null field, lifted with `ordered = false` yet producing an ordered mdict. -/
theorem make_namedtuple_ordered_marker_witness :
    make (.ntpl "Pt" [("x", .int 1), ("y", .null)]) false "dicts" =
      .ok (.mdict "dicts" true
        [("x", .int 1), ("y", .mdict "dicts" false []),
         (NAMEDTUPLE_CLS_KEY, .str "Pt")]) :=
  (make_namedtuple_ordered_marker "Pt" [("x", .int 1), ("y", .null)] false "dicts"
    (by decide) (by decide)).trans rfl

/-! ## Claim C6: record round-trip -/

/-- C6 counterexample: the round trip is NOT the identity for every record
with valid field names.  A null field value goes through `make` inside
`_make_from_namedtuple` (api.py line 164), becoming an empty mdict, which
`convert_to(to_namedtuple=True)` then lowers to an empty record named
`NamedTuple` — not back to null. -/
theorem record_roundtrip_fails_on_null_field :
    (make (.ntpl "X" [("a", .null)]) false "dicts").bind
        (fun t => convert_to t false true) =
      .ok (.ntpl "X" [("a", .ntpl "NamedTuple" [])]) ∧
    Val.ntpl "X" [("a", .ntpl "NamedTuple" [])] ≠ Val.ntpl "X" [("a", .null)] := by
  refine ⟨rfl, ?_⟩
  intro h
  injection h with h1 h2
  injection h2 with h3 h4
  injection h3 with h5 h6
  exact Val.noConfusion h6

/-- C6 amended: for every record whose type name and field names pass
namedtuple validation (valid identifiers), whose fields do not include the
reserved marker name, and whose field values are scalars, lifting with
`make` under a valid policy and lowering with
`convert_to(to_namedtuple=True)` reproduces the record exactly: same type
name, same field names in the same order, same values. -/
theorem record_roundtrip_scalar (name : String) (fields : List (String × Val))
    (o o2 : Bool) (m : String)
    (hm : m ∈ MERGE_STRATEGIES)
    (hall : fields.all (fun kv => kv.2.isScalar) = true)
    (hk : NAMEDTUPLE_CLS_KEY ∉ fields.map Prod.fst)
    (hv : namedtupleValidate name (fields.map Prod.fst) = .ok ()) :
    (make (.ntpl name fields) o m).bind (fun t => convert_to t o2 true) =
      .ok (.ntpl name fields) := by
  have h0 : makeRec (.ntpl name fields) o m =
      .mdict m true (alistSet (makeNtplEntries fields o m) NAMEDTUPLE_CLS_KEY (.str name)) :=
    rfl
  have h1 : makeRec (.ntpl name fields) o m =
      .mdict m true (fields ++ [(NAMEDTUPLE_CLS_KEY, .str name)]) := by
    rw [h0, makeNtplEntries_scalar fields o m hall,
      alistSet_not_mem_append fields _ _ hk]
  have h2 : convert_to (.mdict m true (fields ++ [(NAMEDTUPLE_CLS_KEY, .str name)])) o2 true =
      .ok (.ntpl name fields) := by
    simp [convert_to, convertNtFields_scalar fields o2 (.str name) hall hk,
      alistLookup_append_self fields _ _ hk, hv]
  simp [make, hm, h1, h2]

/-- Witness for `record_roundtrip_scalar`: the record `Point(a=1, b=2)`
round-trips exactly. -/
theorem record_roundtrip_scalar_witness :
    (make (.ntpl "Point" [("a", .int 1), ("b", .int 2)]) false "dicts").bind
        (fun t => convert_to t false true) =
      .ok (.ntpl "Point" [("a", .int 1), ("b", .int 2)]) :=
  record_roundtrip_scalar "Point" [("a", .int 1), ("b", .int 2)] false false "dicts"
    (by decide) (by decide) (by decide) (by rfl)

/-! ## Claim C9: non-final tokens are never integer indices -/

/-- A successful partial reduction extends over an appended suffix. -/
theorem reduceGetitem_ok_append (l1 l2 : List String) (v w : Val)
    (h : reduceGetitem v l1 = .ok w) :
    reduceGetitem v (l1 ++ l2) = reduceGetitem w l2 := by
  induction l1 generalizing v with
  | nil =>
      simp only [reduceGetitem] at h
      injection h with h1
      rw [List.nil_append, h1]
  | cons k rest ih =>
      rw [List.cons_append]
      simp only [reduceGetitem] at h ⊢
      cases hk : getitemStr v k with
      | ok u =>
          rw [hk] at h
          exact ih u h
      | error e =>
          rw [hk] at h
          exact absurd h (by simp)

/-- Keyed subscription of a sequence by a raw string token raises
`TypeError`, so a reduction that has reached a sequence with tokens left
always raises. -/
theorem reduceGetitem_list_cons (xs : List Val) (k : String) (rest : List String) :
    reduceGetitem (.list xs) (k :: rest) =
      .error (.typeError "list indices must be integers or slices, not str") := rfl

/-- C9: during `get`'s descent, every non-final token is applied by RAW keyed
subscription — `functools.reduce(operator.getitem, items[:-1], dic)` never
converts a token to an integer — so whenever the value reached after `i`
tokens (with at least one more non-final token to go) is a Sequence, the
traversal raises `TypeError`, which `get` catches and reports as the
`(Null, message)` pair, even if the token is a valid in-range decimal index
of that sequence. -/
theorem get_intermediate_sequence_raw_key (dic : Val) (path : String) (i : Nat)
    (xs : List Val)
    (hlen : 2 ≤ (pathTokens path).length)
    (hi : i < (pathTokens path).length - 1)
    (hfold : reduceGetitem dic ((pathTokens path).take i) = .ok (.list xs)) :
    get dic path =
      .ok (.null, "list indices must be integers or slices, not str") := by
  cases hI : pathTokens path with
  | nil => rw [hI] at hlen; simp at hlen
  | cons a t =>
      cases t with
      | nil => rw [hI] at hlen; simp at hlen
      | cons b rest =>
          rw [hI] at hi hfold
          have hlen2 : i < ((a :: b :: rest).dropLast).length := by
            rw [List.length_dropLast]
            exact hi
          have e1 : ((a :: b :: rest).dropLast).take i = (a :: b :: rest).take i := by
            rw [List.dropLast_eq_take, List.take_take]
            have : min i ((a :: b :: rest).length - 1) = i :=
              Nat.min_eq_left (Nat.le_of_lt hi)
            rw [this]
          have e2 : ((a :: b :: rest).dropLast).drop i ≠ [] := by
            intro h0
            have hlength : (((a :: b :: rest).dropLast).drop i).length = 0 := by
              rw [h0]
              rfl
            rw [List.length_drop] at hlength
            omega
          obtain ⟨c, cs2, hd⟩ := List.exists_cons_of_ne_nil e2
          have hsplit : (a :: b :: rest).dropLast =
              (a :: b :: rest).take i ++ (c :: cs2) := by
            rw [← e1, ← hd, List.take_append_drop]
          have hred : reduceGetitem dic ((a :: b :: rest).dropLast) =
              .error (.typeError "list indices must be integers or slices, not str") := by
            rw [hsplit, reduceGetitem_ok_append _ _ _ _ hfold,
              reduceGetitem_list_cons]
          have hgt : getTry dic (a :: b :: rest) =
              .error (.typeError "list indices must be integers or slices, not str") := by
            unfold getTry
            rw [hred]
          have hunfold : get dic path =
              (if pathTokens path = [] then Except.ok (dic, "")
               else
                 match getTry dic (pathTokens path) with
                 | .ok r => .ok r
                 | .error e =>
                     if e.isCaught then .ok (.null, e.toMsg) else .error e) := rfl
          rw [hunfold, hI, if_neg (by simp), hgt]
          rfl

/-- Witness for `get_intermediate_sequence_raw_key`: in
`{"a": [[7]]}` at path `"/a/0/0"`, the middle token `"0"` is a valid index
of the inner list, yet `get` reports the type-mismatch pair. -/
theorem get_intermediate_sequence_raw_key_witness :
    get (.dict [("a", .list [.list [.int 7]])]) "/a/0/0" =
      .ok (.null, "list indices must be integers or slices, not str") :=
  get_intermediate_sequence_raw_key (.dict [("a", .list [.list [.int 7]])])
    "/a/0/0" 1 [.list [.int 7]] (by decide) (by decide) (by rfl)

/-! ## Claim C10: record reconstruction of arbitrary mappings -/

/-- The reconstructed field-name list is the mapping's key list with the
marker key — and only it — removed, in mapping order. -/
theorem convertNtFields_keys (es : List (String × Val)) (o : Bool)
    (fs : List (String × Val))
    (h : convertNtFields es o = .ok fs) :
    fs.map Prod.fst = (es.map Prod.fst).filter (· ≠ NAMEDTUPLE_CLS_KEY) := by
  induction es generalizing fs with
  | nil =>
      simp only [convertNtFields] at h
      injection h with h1
      rw [← h1]
      rfl
  | cons kv rest ih =>
      cases kv with
      | mk k v =>
          by_cases hk : k = NAMEDTUPLE_CLS_KEY
          · subst hk
            simp only [convertNtFields, if_pos rfl] at h
            rw [ih fs h, List.map_cons, List.filter_cons]
            simp
          · cases hw : convert_to v o true with
            | error e =>
                simp only [convertNtFields, if_neg hk, hw, except_bind_error] at h
                exact absurd h (by simp)
            | ok w =>
                cases hws : convertNtFields rest o with
                | error e =>
                    simp only [convertNtFields, if_neg hk, hw, hws, except_bind_ok,
                      except_bind_error] at h
                    exact absurd h (by simp)
                | ok ws =>
                    simp only [convertNtFields, if_neg hk, hw, hws, except_bind_ok,
                      except_pure_eq] at h
                    injection h with h1
                    rw [← h1, List.map_cons, List.map_cons, List.filter_cons]
                    simp [hk, ih ws hws]

/-- C10 counterexample: with record reconstruction requested, a mapping whose
key is not a valid field identifier is NOT turned into a record —
`collections.namedtuple` raises `ValueError`, which `convert_to` propagates. -/
theorem convert_to_record_invalid_identifier :
    convert_to (.dict [("a b", .int 1)]) false true =
      .error (.valueError
        "Type names and field names must be valid identifiers: \x27a b\x27") := rfl

/-- C10 amended: when record reconstruction is requested and the per-entry
conversions succeed, `convert_to` turns a Mapping whose resulting field names
pass namedtuple validation into a record: the type name defaults to
`"NamedTuple"` when the marker key is absent and is the marker's text value
when present; the fields are all non-marker keys in mapping order (the
marker, when present, being the only key excluded) with their converted
values. -/
theorem convert_to_record_reconstruction (es : List (String × Val)) (o : Bool)
    (fs : List (String × Val))
    (hconv : convertNtFields es o = .ok fs) :
    fs.map Prod.fst = (es.map Prod.fst).filter (· ≠ NAMEDTUPLE_CLS_KEY) ∧
    (alistLookup es NAMEDTUPLE_CLS_KEY = none →
      namedtupleValidate "NamedTuple" (fs.map Prod.fst) = .ok () →
      convert_to (.dict es) o true = .ok (.ntpl "NamedTuple" fs)) ∧
    (∀ n : String, alistLookup es NAMEDTUPLE_CLS_KEY = some (.str n) →
      namedtupleValidate n (fs.map Prod.fst) = .ok () →
      convert_to (.dict es) o true = .ok (.ntpl n fs)) := by
  refine ⟨convertNtFields_keys es o fs hconv, ?_, ?_⟩
  · intro hnone hv
    simp [convert_to, hconv, hnone, hv]
  · intro n hsome hv
    simp [convert_to, hconv, hsome, hv]

/-- Witness for `convert_to_record_reconstruction`: one mapping carrying a
marker (reconstructed under its recorded name, marker excluded) and one
without (name defaults to `NamedTuple`, all keys become fields). -/
theorem convert_to_record_reconstruction_witness :
    convert_to (.dict [("a", .int 1), (NAMEDTUPLE_CLS_KEY, .str "Rec")]) false true =
      .ok (.ntpl "Rec" [("a", .int 1)]) ∧
    convert_to (.dict [("b", .int 2)]) false true =
      .ok (.ntpl "NamedTuple" [("b", .int 2)]) :=
  ⟨(convert_to_record_reconstruction [("a", .int 1), (NAMEDTUPLE_CLS_KEY, .str "Rec")]
      false [("a", .int 1)] rfl).2.2 "Rec" rfl (by rfl),
   (convert_to_record_reconstruction [("b", .int 2)] false [("b", .int 2)]
      rfl).2.1 rfl (by rfl)⟩
